import Mathlib

/-! Texture upscaling glue of mupen64plus-video-rice.

A shallow embedding of `src/ai_upscaler.cpp` (class `AIUpscaler`: content hash,
result cache, TensorFlow-Lite upscale) and of `src/lumina_integration.c`
(the dynamically bound LUMINA64 plugin: bind, unbind and the guarded wrappers),
followed by the properties established about them.

Conventions.
* `unsigned char` is `Byte = Fin 256`; a pointer to bytes is the list of bytes
  it points to; `uint64_t` values are naturals reduced modulo `2 ^ 64`;
  `int` values are integers, wrapped to 32 bits where the code computes with them.
* Global C variables and class members become fields of an explicit state that
  every operation receives and returns.
* Code that lives outside the repository (the xxHash routine, the TensorFlow-Lite
  interpreter, the dynamic loader, `malloc`, the plugin itself) is a parameter.
-/

namespace RiceUpscale

/-! ## Data model of `ai_upscaler` -/

/-- One `uint8_t` / `unsigned char`. -/
abbrev Byte := Fin 256

/-- The member `std::unordered_map<uint64_t, std::vector<uint8_t>> cache_`,
kept as a list of key/value pairs. -/
abbrev CacheMap := List (Nat × List Byte)

/-- The lookup `cache_.find(k)`: the vector stored under `k`, or `none` for `cache_.end()`. -/
def CacheMap.find : CacheMap → Nat → Option (List Byte)
  | [], _ => none
  | (k', v') :: rest, k => if k' = k then some v' else CacheMap.find rest k

/-- The assignment `cache_[k] = v`: the entry under `k` is replaced when there is one,
and created otherwise. -/
def CacheMap.assign : CacheMap → Nat → List Byte → CacheMap
  | [], k, v => [(k, v)]
  | (k', v') :: rest, k, v =>
    if k' = k then (k, v) :: rest else (k', v') :: CacheMap.assign rest k v

/-- The state of an `AIUpscaler` object. `interpreter_` is the TensorFlow-Lite
interpreter (an external object of state type `σ`), `cache_` the result cache, and
`invocations` counts the calls of `interpreter_->Invoke()` made so far. -/
structure AIUpscaler (σ : Type) where
  interpreter_ : σ
  cache_ : CacheMap
  invocations : Nat

/-- The method `AIUpscaler::ComputeHash(data, size)`, that is `XXH64(data, size, 0)`.
The routine `XXH64` comes from the xxHash header and is a parameter here; its result
is a `uint64_t`. The bytes hashed are the first `size` bytes behind `data`; `size` is the
`int` byte count, which is not negative. -/
def AIUpscaler.ComputeHash (XXH64 : List Byte → Nat → Nat) (data : List Byte) (size : Nat) : Nat :=
  XXH64 (data.take size) 0 % 2 ^ 64

/-- The method `AIUpscaler::IsCached`: `cache_.find(h) != cache_.end()`. -/
def AIUpscaler.IsCached {σ : Type} (self : AIUpscaler σ) (texture_hash : Nat) : Bool :=
  (self.cache_.find texture_hash).isSome

/-- The method `AIUpscaler::CacheTexture`:
`cache_[h] = std::vector<uint8_t>(data, data + size)`, with `size` the `int` byte count,
which is not negative. -/
def AIUpscaler.CacheTexture {σ : Type} (self : AIUpscaler σ) (texture_hash : Nat)
    (data : List Byte) (size : Nat) : AIUpscaler σ :=
  { self with cache_ := self.cache_.assign texture_hash (data.take size) }

/-- The method `AIUpscaler::GetCached`: `it->second.data()` on a hit and `nullptr` on a
miss. `none` is the null pointer, `some v` a pointer to the stored bytes `v`. For a
stored vector of length 0, `data()` is the null pointer too, the value of a miss. -/
def AIUpscaler.GetCached {σ : Type} (self : AIUpscaler σ) (texture_hash : Nat) :
    Option (List Byte) :=
  match self.cache_.find texture_hash with
  | none => none
  | some v => if v.isEmpty then none else some v

/-! ## `AIUpscaler::UpscaleTexture` -/

/-- A C `int` computation: the value wrapped to 32 bits, two's complement. -/
def wrapInt32 (x : Int) : Int := (x + 2 ^ 31) % 2 ^ 32 - 2 ^ 31

/-- The conversion of an `int` to `size_t` (64 bits), as done for the length argument
of `memcpy` and for the argument of `malloc`. -/
def toSizeT (x : Int) : Nat := (x % 2 ^ 64).toNat

/-- The operations of the TensorFlow-Lite interpreter that `UpscaleTexture` uses, on an
interpreter of state type `σ` whose float tensors hold values of type `F`.
`normalize` is `input[i] / 255.0f` and `denormalize` is
`static_cast<uint8_t>(std::min(255.0f, std::max(0.0f, x * 255.0f)))`. -/
structure TfLite (σ F : Type) where
  inputIsFloat : σ → Bool
  writeInputFloat : σ → List F → σ
  writeInputBytes : σ → List Byte → σ
  Invoke : σ → σ × Bool
  outputDims : σ → List Int
  outputIsFloat : σ → Bool
  outputFloat : σ → List F
  outputBytes : σ → List Byte
  normalize : Byte → F
  denormalize : F → Byte

/-- What `UpscaleTexture` leaves behind: the object, the returned `bool`, and the
contents of `output`, `*out_width` and `*out_height`. -/
structure UpscaleTextureRet (σ : Type) where
  self : AIUpscaler σ
  ret : Bool
  output : List Byte
  out_width : Int
  out_height : Int

/-- Storing `src` over the beginning of the buffer `dst`. -/
def overwrite (dst src : List Byte) : List Byte := src ++ dst.drop src.length

/-- The method `AIUpscaler::UpscaleTexture`. The arguments `output`, `out_width` and
`out_height` are what the three out-pointers hold before the call. -/
def AIUpscaler.UpscaleTexture {σ F : Type} (tf : TfLite σ F) (self : AIUpscaler σ)
    (input : List Byte) (width height : Int)
    (output : List Byte) (out_width out_height : Int) : UpscaleTextureRet σ :=
  let n := wrapInt32 (wrapInt32 (width * height) * 3)
  let loaded :=
    if tf.inputIsFloat self.interpreter_ then
      tf.writeInputFloat self.interpreter_ ((input.take n.toNat).map tf.normalize)
    else
      tf.writeInputBytes self.interpreter_ (input.take (toSizeT n))
  let ran := tf.Invoke loaded
  let self1 : AIUpscaler σ :=
    { self with interpreter_ := ran.1, invocations := self.invocations + 1 }
  if ran.2 = false then
    { self := self1, ret := false, output := output,
      out_width := out_width, out_height := out_height }
  else
    let dims := tf.outputDims ran.1
    let oh := if 3 ≤ dims.length then dims.getD 1 0 else wrapInt32 (height * 4)
    let ow := if 3 ≤ dims.length then dims.getD 2 0 else wrapInt32 (width * 4)
    let m := wrapInt32 (wrapInt32 (ow * oh) * 3)
    let produced :=
      if tf.outputIsFloat ran.1 then
        ((tf.outputFloat ran.1).take m.toNat).map tf.denormalize
      else
        (tf.outputBytes ran.1).take (toSizeT m)
    { self := self1, ret := true, output := overwrite output produced,
      out_width := ow, out_height := oh }

/-! ## Data model of `lumina_integration` -/

/-- The eleven symbols that `lumina_init_plugin` resolves in the plugin. -/
inductive Sym
  | lumina_init | lumina_shutdown | lumina_process_texture
  | lumina_upscale_async | lumina_async_status | lumina_async_result
  | lumina_set_enabled | lumina_get_enabled
  | lumina_set_osd_enabled | lumina_get_osd_enabled | lumina_render_osd
  deriving DecidableEq, Repr

/-- What the wrappers do to the outside world, in order: loader calls, calls through a
plugin function pointer, and heap calls. -/
inductive Event
  | dlopen (path : String)
  | dlclose
  | call (f : Sym)
  | malloc (size : Nat)
  | free
  deriving DecidableEq, Repr

/-- A heap block: the size it was allocated with and the bytes stored in it. -/
structure Buffer where
  capacity : Nat
  bytes : List Byte
  deriving DecidableEq, Repr

/-- The contents of the three out-parameters `*output` (`none` is `NULL`), `*out_w`
and `*out_h` of the upscale and collect entry points. -/
structure Outs where
  output : Option Buffer
  out_w : Int
  out_h : Int
  deriving DecidableEq, Repr

/-- What a call of the plugin's `lumina_process_texture` leaves behind: the plugin's own
memory, the returned `int`, the bytes it stored through `output`, and the contents of
`*out_w` and `*out_h`. -/
structure ProcessRet (σ : Type) where
  plugin : σ
  result : Int
  stored : List Byte
  out_w : Int
  out_h : Int

/-- What a call of the plugin's `lumina_async_result` leaves behind. -/
structure CollectRet (σ : Type) where
  plugin : σ
  result : Bool
  outs : Outs

/-- A loadable plugin whose own memory has type `σ`: for each symbol, the function
`dlsym` finds under that name, or `none` when the plugin does not export it.
`lumina_process_texture` receives the input bytes, `w`, `h` and the contents of
`*out_w` and `*out_h`; `lumina_async_result` receives the id and the contents of the
three out-parameters. -/
structure Module (σ : Type) where
  lumina_init : Option (σ → σ × Int)
  lumina_shutdown : Option (σ → σ)
  lumina_process_texture : Option (σ → List Byte → Int → Int → Int → Int → ProcessRet σ)
  lumina_upscale_async : Option (σ → List Byte → Int → Int → σ × Int)
  lumina_async_status : Option (σ → Int → σ × Int)
  lumina_async_result : Option (σ → Int → Outs → CollectRet σ)
  lumina_set_enabled : Option (σ → Int → σ)
  lumina_get_enabled : Option (σ → σ × Int)
  lumina_set_osd_enabled : Option (σ → Int → σ)
  lumina_get_osd_enabled : Option (σ → σ × Int)
  lumina_render_osd : Option (σ → σ)

/-- The environment of the wrappers: what `dlopen` finds under a path, and for which
sizes `malloc` returns a block. -/
structure Env (σ : Type) where
  dlopen : String → Option (Module σ)
  malloc : Nat → Bool

/-- The file-scope variables of `lumina_integration.c` (`none` is `NULL`), together with
the plugin's own memory `plugin` and the record `trace` of outside calls made so far. -/
structure State (σ : Type) where
  g_plugin_handle : Option (Module σ)
  fn_lumina_init : Option (σ → σ × Int)
  fn_lumina_shutdown : Option (σ → σ)
  fn_lumina_process : Option (σ → List Byte → Int → Int → Int → Int → ProcessRet σ)
  fn_lumina_upscale_async : Option (σ → List Byte → Int → Int → σ × Int)
  fn_lumina_async_status : Option (σ → Int → σ × Int)
  fn_lumina_async_result : Option (σ → Int → Outs → CollectRet σ)
  fn_lumina_set_enabled : Option (σ → Int → σ)
  fn_lumina_get_enabled : Option (σ → σ × Int)
  fn_lumina_set_osd_enabled : Option (σ → Int → σ)
  fn_lumina_get_osd_enabled : Option (σ → σ × Int)
  fn_lumina_render_osd : Option (σ → σ)
  plugin : σ
  trace : List Event

/-- The state at program start: every file-scope variable is `NULL`. -/
def State.initial {σ : Type} (plugin : σ) : State σ :=
  { g_plugin_handle := none, fn_lumina_init := none, fn_lumina_shutdown := none,
    fn_lumina_process := none, fn_lumina_upscale_async := none,
    fn_lumina_async_status := none, fn_lumina_async_result := none,
    fn_lumina_set_enabled := none, fn_lumina_get_enabled := none,
    fn_lumina_set_osd_enabled := none, fn_lumina_get_osd_enabled := none,
    fn_lumina_render_osd := none, plugin := plugin, trace := [] }

/-- Appending one outside call to the record. -/
def State.log {σ : Type} (s : State σ) (e : Event) : State σ :=
  { s with trace := s.trace ++ [e] }

/-! ## Operations of `lumina_integration` -/

/-- The eleven `dlsym` assignments of `lumina_init_plugin`, made once `dlopen` has
returned the module `m` and its handle is stored in `g_plugin_handle`. -/
def State.resolve {σ : Type} (s : State σ) (m : Module σ) : State σ :=
  { s with
    g_plugin_handle := some m
    fn_lumina_init := m.lumina_init
    fn_lumina_shutdown := m.lumina_shutdown
    fn_lumina_process := m.lumina_process_texture
    fn_lumina_upscale_async := m.lumina_upscale_async
    fn_lumina_async_status := m.lumina_async_status
    fn_lumina_async_result := m.lumina_async_result
    fn_lumina_set_enabled := m.lumina_set_enabled
    fn_lumina_get_enabled := m.lumina_get_enabled
    fn_lumina_set_osd_enabled := m.lumina_set_osd_enabled
    fn_lumina_get_osd_enabled := m.lumina_get_osd_enabled
    fn_lumina_render_osd := m.lumina_render_osd }

/-- The two statements `dlclose(g_plugin_handle); g_plugin_handle = NULL;` of the failure
branches of `lumina_init_plugin`. -/
def State.unload {σ : Type} (s : State σ) : State σ :=
  { s.log Event.dlclose with g_plugin_handle := none }

/-- The function `lumina_init_plugin`. -/
def lumina_init_plugin {σ : Type} (env : Env σ) (s : State σ) (plugin_path : String) :
    State σ × Bool :=
  if s.g_plugin_handle.isSome then (s, true)
  else
    let s1 := s.log (Event.dlopen plugin_path)
    match env.dlopen plugin_path with
    | none => ({ s1 with g_plugin_handle := none }, false)
    | some m =>
      let s2 := s1.resolve m
      match s2.fn_lumina_init with
      | none => (s2.unload, false)
      | some init =>
        if s2.fn_lumina_shutdown.isNone || s2.fn_lumina_process.isNone then
          (s2.unload, false)
        else
          let r := init s2.plugin
          let s3 : State σ := { s2.log (Event.call Sym.lumina_init) with plugin := r.1 }
          if r.2 ≠ 1 then (s3.unload, false)
          else (s3, true)

/-- The function `lumina_shutdown_plugin`. -/
def lumina_shutdown_plugin {σ : Type} (s : State σ) : State σ :=
  if s.g_plugin_handle.isSome then
    let s1 : State σ :=
      match s.fn_lumina_shutdown with
      | some shutdown => { s.log (Event.call Sym.lumina_shutdown) with plugin := shutdown s.plugin }
      | none => s
    { s1.log Event.dlclose with
      g_plugin_handle := none
      fn_lumina_init := none
      fn_lumina_shutdown := none
      fn_lumina_process := none
      fn_lumina_upscale_async := none
      fn_lumina_async_status := none
      fn_lumina_async_result := none
      fn_lumina_set_enabled := none
      fn_lumina_get_enabled := none
      fn_lumina_set_osd_enabled := none
      fn_lumina_get_osd_enabled := none
      fn_lumina_render_osd := none }
  else s

/-- The local `int max_size = w * 4 * h * 4 * 3;` of `lumina_upscale`, computed in `int`. -/
def max_size (w h : Int) : Int :=
  wrapInt32 (wrapInt32 (wrapInt32 (wrapInt32 (w * 4) * h) * 4) * 3)

/-- What `lumina_upscale` and `lumina_async_result` leave behind: the state, the returned
`bool`, and the contents of the three out-parameters. -/
structure UpscaleRet (σ : Type) where
  state : State σ
  ret : Bool
  outs : Outs

/-- The function `lumina_upscale`. The argument `outs` is what `*output`, `*out_w` and
`*out_h` hold before the call. -/
def lumina_upscale {σ : Type} (env : Env σ) (s : State σ) (input : List Byte) (w h : Int)
    (outs : Outs) : UpscaleRet σ :=
  if s.g_plugin_handle.isNone then { state := s, ret := false, outs := outs }
  else
    match s.fn_lumina_process with
    | none => { state := s, ret := false, outs := outs }
    | some process =>
      let size := toSizeT (max_size w h)
      let s1 := s.log (Event.malloc size)
      if env.malloc size = false then
        { state := s1, ret := false, outs := { outs with output := none } }
      else
        let r := process s1.plugin input w h outs.out_w outs.out_h
        let s2 : State σ :=
          { s1.log (Event.call Sym.lumina_process_texture) with plugin := r.plugin }
        if r.result ≠ 1 then
          { state := s2.log Event.free, ret := false,
            outs := { output := none, out_w := r.out_w, out_h := r.out_h } }
        else
          { state := s2, ret := true,
            outs := { output := some { capacity := size, bytes := r.stored },
                      out_w := r.out_w, out_h := r.out_h } }

/-- The function `lumina_upscale_async`. -/
def lumina_upscale_async {σ : Type} (s : State σ) (input_rgb : List Byte)
    (width height : Int) : State σ × Int :=
  if s.g_plugin_handle.isNone then (s, 0)
  else
    match s.fn_lumina_upscale_async with
    | none => (s, 0)
    | some f =>
      let r := f s.plugin input_rgb width height
      ({ s.log (Event.call Sym.lumina_upscale_async) with plugin := r.1 }, r.2)

/-- The function `lumina_async_status`. -/
def lumina_async_status {σ : Type} (s : State σ) (id : Int) : State σ × Int :=
  if s.g_plugin_handle.isNone then (s, -1)
  else
    match s.fn_lumina_async_status with
    | none => (s, -1)
    | some f =>
      let r := f s.plugin id
      ({ s.log (Event.call Sym.lumina_async_status) with plugin := r.1 }, r.2)

/-- The function `lumina_async_result`. The argument `outs` is what `*out_data`, `*out_w`
and `*out_h` hold before the call. -/
def lumina_async_result {σ : Type} (s : State σ) (id : Int) (outs : Outs) : UpscaleRet σ :=
  if s.g_plugin_handle.isNone then { state := s, ret := false, outs := outs }
  else
    match s.fn_lumina_async_result with
    | none => { state := s, ret := false, outs := outs }
    | some f =>
      let r := f s.plugin id outs
      { state := { s.log (Event.call Sym.lumina_async_result) with plugin := r.plugin },
        ret := r.result, outs := r.outs }

/-- The function `lumina_set_enabled`. -/
def lumina_set_enabled {σ : Type} (s : State σ) (enabled : Int) : State σ :=
  if s.g_plugin_handle.isSome then
    match s.fn_lumina_set_enabled with
    | some f => { s.log (Event.call Sym.lumina_set_enabled) with plugin := f s.plugin enabled }
    | none => s
  else s

/-- The function `lumina_get_enabled`. -/
def lumina_get_enabled {σ : Type} (s : State σ) : State σ × Int :=
  if s.g_plugin_handle.isSome then
    match s.fn_lumina_get_enabled with
    | some f =>
      let r := f s.plugin
      ({ s.log (Event.call Sym.lumina_get_enabled) with plugin := r.1 }, r.2)
    | none => (s, 0)
  else (s, 0)

/-- The function `lumina_set_osd_enabled`. -/
def lumina_set_osd_enabled {σ : Type} (s : State σ) (enabled : Int) : State σ :=
  if s.g_plugin_handle.isSome then
    match s.fn_lumina_set_osd_enabled with
    | some f =>
      { s.log (Event.call Sym.lumina_set_osd_enabled) with plugin := f s.plugin enabled }
    | none => s
  else s

/-- The function `lumina_get_osd_enabled`. -/
def lumina_get_osd_enabled {σ : Type} (s : State σ) : State σ × Int :=
  if s.g_plugin_handle.isSome then
    match s.fn_lumina_get_osd_enabled with
    | some f =>
      let r := f s.plugin
      ({ s.log (Event.call Sym.lumina_get_osd_enabled) with plugin := r.1 }, r.2)
    | none => (s, 0)
  else (s, 0)

/-- The function `lumina_render_osd`. -/
def lumina_render_osd {σ : Type} (s : State σ) : State σ :=
  if s.g_plugin_handle.isSome then
    match s.fn_lumina_render_osd with
    | some f => { s.log (Event.call Sym.lumina_render_osd) with plugin := f s.plugin }
    | none => s
  else s

/-- The state `lumina_upscale` leaves after a successful allocation and the call of the
plugin's sync entry point, before a possible `free`. -/
def afterProcess {σ : Type} (s : State σ) (w h : Int) (plugin : σ) : State σ :=
  { (s.log (Event.malloc (toSizeT (max_size w h)))).log (Event.call Sym.lumina_process_texture)
      with plugin := plugin }

/-- The three ways a bind attempt fails: the library cannot be loaded, one of the required
symbols `lumina_init`, `lumina_shutdown`, `lumina_process_texture` is missing, or
`lumina_init` returns a value other than 1. -/
def bindFailure {σ : Type} (env : Env σ) (s : State σ) (plugin_path : String) : Bool :=
  match env.dlopen plugin_path with
  | none => true
  | some m =>
    match m.lumina_init with
    | none => true
    | some init =>
      m.lumina_shutdown.isNone || m.lumina_process_texture.isNone
        || decide ((init s.plugin).2 ≠ 1)

/-! ## The plugin's request tracker -/

/-- Modelled from the spec: the lifecycle state of an `AsyncRequest` kept inside the
external plugin (the plugin's source is not part of `src/`): Pending, Ready with the
owned result buffer and its dimensions, or Error. -/
inductive RequestState
  | Pending
  | Ready (result : Buffer) (out_w out_h : Int)
  | Error
  deriving DecidableEq, Repr

/-- Modelled from the spec: the plugin-side bookkeeping of async requests (not part of
`src/`): the requests that are pending or unread, by identity. -/
structure Tracker where
  requests : List (Int × RequestState)
  deriving DecidableEq, Repr

/-- Modelled from the spec: the tracker of a freshly loaded plugin (missing from `src/`). -/
def Tracker.fresh : Tracker := { requests := [] }

/-- Modelled from the spec: the slot of request `id` in the plugin's tracker (missing
from `src/`), `none` when there is no such pending or unread request. -/
def Tracker.slot : List (Int × RequestState) → Int → Option RequestState
  | [], _ => none
  | (i, r) :: rest, id => if i = id then some r else Tracker.slot rest id

/-- Modelled from the spec: the plugin's `submit` (its `lumina_upscale_async`, missing
from `src/`). The plugin chooses the identity by a policy `pick` of its own, an `int`;
the spec fixes only that 0 is reserved and reports a failed submission, and that an
identity is unique while its request is pending or unread. So a choice of 0 or of an
identity still in use is a failed submission (0 is returned, nothing is created), and
otherwise a request is created Pending under the chosen identity, which may have been
used by a request collected before. -/
def Tracker.submit (pick : Tracker → List Byte → Int → Int → Int) (t : Tracker)
    (input : List Byte) (w h : Int) : Tracker × Int :=
  let id := wrapInt32 (pick t input w h)
  if id = 0 ∨ (Tracker.slot t.requests id).isSome = true then (t, 0)
  else ({ requests := (id, RequestState.Pending) :: t.requests }, id)

/-- Modelled from the spec: the plugin's `poll` (its `lumina_async_status`, missing from
`src/`): 0 for Pending, 1 for Ready, -1 for Error; an identity without a pending or
unread request is reported as Error. -/
def Tracker.poll (t : Tracker) (id : Int) : Tracker × Int :=
  match Tracker.slot t.requests id with
  | some RequestState.Pending => (t, 0)
  | some (RequestState.Ready _ _ _) => (t, 1)
  | some RequestState.Error => (t, -1)
  | none => (t, -1)

/-- Modelled from the spec: the plugin's `collect` (its `lumina_async_result`, missing
from `src/`): a Ready request hands its buffer and dimensions to the caller and its slot
is freed; anything else is not-found and nothing is written. -/
def Tracker.collect (t : Tracker) (id : Int) (outs : Outs) : CollectRet Tracker :=
  match Tracker.slot t.requests id with
  | some (RequestState.Ready result out_w out_h) =>
    { plugin := { requests := t.requests.filter (fun e => decide (e.1 ≠ id)) },
      result := true,
      outs := { output := some result, out_w := out_w, out_h := out_h } }
  | _ => { plugin := t, result := false, outs := outs }

/-- Modelled from the spec: the backend finishing request `id` on its own (inside the
plugin, missing from `src/`): a Pending request becomes `outcome`, exactly once; any
other request is left alone. -/
def Tracker.finish (t : Tracker) (id : Int) (outcome : RequestState) : Tracker :=
  { requests := t.requests.map
      (fun e => if e.1 = id ∧ e.2 = RequestState.Pending then (e.1, outcome) else e) }

/-- Modelled from the spec: a plugin (missing from `src/`) that exports the three required
entry points and the async entry points served by its tracker, with identities chosen
by `pick`. Its sync entry point reports failure; the toggle and OSD symbols are absent. -/
def trackerPlugin (pick : Tracker → List Byte → Int → Int → Int) : Module Tracker :=
  { lumina_init := some (fun t => (t, 1))
    lumina_shutdown := some (fun t => t)
    lumina_process_texture := some (fun t _ _ _ ow oh =>
      { plugin := t, result := 0, stored := [], out_w := ow, out_h := oh })
    lumina_upscale_async := some (Tracker.submit pick)
    lumina_async_status := some Tracker.poll
    lumina_async_result := some Tracker.collect
    lumina_set_enabled := none
    lumina_get_enabled := none
    lumina_set_osd_enabled := none
    lumina_get_osd_enabled := none
    lumina_render_osd := none }

/-- What can happen between two observations of a request: a call of any entry point of
`lumina_integration.h`, or the backend finishing a request inside the plugin. -/
inductive Step
  | init_plugin (plugin_path : String)
  | shutdown_plugin
  | upscale (input : List Byte) (w h : Int) (outs : Outs)
  | upscale_async (input : List Byte) (width height : Int)
  | async_status (id : Int)
  | async_result (id : Int) (outs : Outs)
  | set_enabled (enabled : Int)
  | get_enabled
  | set_osd_enabled (enabled : Int)
  | get_osd_enabled
  | render_osd
  | finish (id : Int) (outcome : RequestState)

/-- One `Step` applied to the state, every call going through the code of
`lumina_integration.c`. -/
def Step.apply (env : Env Tracker) (s : State Tracker) : Step → State Tracker
  | Step.init_plugin plugin_path => (lumina_init_plugin env s plugin_path).1
  | Step.shutdown_plugin => lumina_shutdown_plugin s
  | Step.upscale input w h outs => (lumina_upscale env s input w h outs).state
  | Step.upscale_async input width height => (lumina_upscale_async s input width height).1
  | Step.async_status id => (lumina_async_status s id).1
  | Step.async_result id outs => (lumina_async_result s id outs).state
  | Step.set_enabled enabled => lumina_set_enabled s enabled
  | Step.get_enabled => (lumina_get_enabled s).1
  | Step.set_osd_enabled enabled => lumina_set_osd_enabled s enabled
  | Step.get_osd_enabled => (lumina_get_osd_enabled s).1
  | Step.render_osd => lumina_render_osd s
  | Step.finish id outcome => { s with plugin := s.plugin.finish id outcome }

/-- A sequence of `Step`s applied in order. -/
def Step.run (env : Env Tracker) (s : State Tracker) (steps : List Step) : State Tracker :=
  steps.foldl (Step.apply env) s

/-- An identity policy for the tracker plugin double: the lowest of the identities 1 and
2 that is free, and 0 (no request accepted) when both are in use. -/
def lowestFree (t : Tracker) (_input : List Byte) (_w _h : Int) : Int :=
  if (Tracker.slot t.requests 1).isNone then 1
  else if (Tracker.slot t.requests 2).isNone then 2
  else 0

/-! ## Test doubles -/

/-- A plugin double that reports 4x linear scale: `lumina_process_texture` succeeds with an
all-zero image of `4w x 4h` pixels. Its memory counts the calls of that entry point.
It exports the three required symbols only. -/
def scale4Plugin : Module Nat :=
  { lumina_init := some (fun n => (n, 1))
    lumina_shutdown := some (fun n => n)
    lumina_process_texture := some (fun n _ w h _ _ =>
      { plugin := n + 1, result := 1,
        stored := List.replicate (w * 4 * (h * 4) * 3).toNat 0,
        out_w := w * 4, out_h := h * 4 })
    lumina_upscale_async := none
    lumina_async_status := none
    lumina_async_result := none
    lumina_set_enabled := none
    lumina_get_enabled := none
    lumina_set_osd_enabled := none
    lumina_get_osd_enabled := none
    lumina_render_osd := none }

/-- A plugin double that exports every symbol, whose `lumina_init` reports failure and
whose async entry points report failure: submission fails with 0, every status is
Error (-1), and nothing can be collected. -/
def failingPlugin : Module Nat :=
  { lumina_init := some (fun n => (n, 0))
    lumina_shutdown := some (fun n => n)
    lumina_process_texture := some (fun n _ _ _ ow oh =>
      { plugin := n, result := 0, stored := [], out_w := ow, out_h := oh })
    lumina_upscale_async := some (fun n _ _ _ => (n, 0))
    lumina_async_status := some (fun n _ => (n, -1))
    lumina_async_result := some (fun n _ outs => { plugin := n, result := false, outs := outs })
    lumina_set_enabled := some (fun n _ => n)
    lumina_get_enabled := some (fun n => (n, 1))
    lumina_set_osd_enabled := some (fun n _ => n)
    lumina_get_osd_enabled := some (fun n => (n, 1))
    lumina_render_osd := some (fun n => n) }

/-- The plugin double `failingPlugin` with a `lumina_init` that succeeds. -/
def errorPlugin : Module Nat :=
  { failingPlugin with lumina_init := some (fun n => (n, 1)) }

/-- An environment double: three plugin files, and a `malloc` that always succeeds. -/
def testEnv : Env Nat :=
  { dlopen := fun path =>
      if path = "scale4.so" then some scale4Plugin
      else if path = "failing.so" then some failingPlugin
      else if path = "error.so" then some errorPlugin
      else none
    malloc := fun _ => true }

/-- An environment double for the tracker plugin. -/
def trackerEnv : Env Tracker :=
  { dlopen := fun path => if path = "tracker.so" then some (trackerPlugin lowestFree) else none
    malloc := fun _ => true }

/-- The state after binding the tracker plugin double at program start. -/
def trackerStart : State Tracker :=
  (lumina_init_plugin trackerEnv (State.initial Tracker.fresh) "tracker.so").1

/-- The state after one async submission on `trackerStart`: request 1 is pending. -/
def trackerBusy : State Tracker :=
  (lumina_upscale_async trackerStart [0, 0, 0] 1 1).1

/-- The state of an interpreter double: the bytes last stored in the input tensor and
the bytes and shape of the output tensor. -/
structure TestInterpreter where
  input : List Byte
  output : List Byte
  dims : List Int
  deriving DecidableEq, Repr

/-- An interpreter double with `uint8` tensors for `w x h` inputs that reports 4x linear
scale: `Invoke` succeeds and leaves an all-zero `1 x 4h x 4w x 3` output tensor. -/
def scale4Interpreter (w h : Nat) : TfLite TestInterpreter Nat :=
  { inputIsFloat := fun _ => false
    writeInputFloat := fun t _ => t
    writeInputBytes := fun t bytes => { t with input := bytes }
    Invoke := fun t =>
      ({ t with output := List.replicate (4 * h * (4 * w) * 3) 0,
                dims := [1, 4 * (h : Int), 4 * (w : Int), 3] }, true)
    outputDims := fun t => t.dims
    outputIsFloat := fun _ => false
    outputFloat := fun _ => []
    outputBytes := fun t => t.output
    normalize := fun b => b.val
    denormalize := fun _ => 0 }

/-- A stand-in for `XXH64` used where a concrete hash routine is needed: the seed plus
the sum of the bytes. -/
def sumHash (bytes : List Byte) (seed : Nat) : Nat :=
  bytes.foldl (fun acc b => acc + b.val) seed

/-- The state after binding the plugin double `scale4Plugin` at program start. -/
def scale4Bound : State Nat :=
  (lumina_init_plugin testEnv (State.initial 0) "scale4.so").1

/-- The state after binding the plugin double `errorPlugin` at program start. -/
def errorBound : State Nat :=
  (lumina_init_plugin testEnv (State.initial 0) "error.so").1

/-- A caller-provided output buffer of `256 x 256 x 3` bytes. -/
def blankOutput : List Byte := List.replicate (256 * 256 * 3) 255

/-- An `AIUpscaler` double right after construction and `Initialize`: nothing cached, no
inference run yet. -/
def freshUpscaler : AIUpscaler TestInterpreter :=
  { interpreter_ := { input := [], output := [], dims := [] }, cache_ := [], invocations := 0 }

/-- The all-zero `64 x 64 x 3` texture of the scenario. -/
def zeroTexture : List Byte := List.replicate (64 * 64 * 3) 0

/-! ## The result cache -/

theorem CacheMap.find_assign_same (c : CacheMap) (k : Nat) (v : List Byte) :
    (c.assign k v).find k = some v := by
  induction c with
  | nil => simp [CacheMap.assign, CacheMap.find]
  | cons e rest ih =>
    obtain ⟨k', v'⟩ := e
    by_cases hk : k' = k
    · simp [CacheMap.assign, CacheMap.find, hk]
    · simp [CacheMap.assign, CacheMap.find, hk, ih]

theorem CacheMap.find_assign_other (c : CacheMap) (k g : Nat) (v : List Byte) (hg : k ≠ g) :
    (c.assign k v).find g = c.find g := by
  induction c with
  | nil => simp [CacheMap.assign, CacheMap.find, hg]
  | cons e rest ih =>
    obtain ⟨k', v'⟩ := e
    by_cases hk : k' = k
    · subst hk
      simp [CacheMap.assign, CacheMap.find, hg]
    · by_cases hg' : k' = g
      · subst hg'
        simp [CacheMap.assign, CacheMap.find, hk]
      · simp [CacheMap.assign, CacheMap.find, hk, hg', ih]

theorem CacheMap.assign_assign (c : CacheMap) (k : Nat) (v : List Byte) :
    (c.assign k v).assign k v = c.assign k v := by
  induction c with
  | nil => simp [CacheMap.assign]
  | cons e rest ih =>
    obtain ⟨k', v'⟩ := e
    by_cases hk : k' = k
    · simp [CacheMap.assign, hk]
    · simp [CacheMap.assign, hk, ih]

/-- Inserting the same entry twice gives the very same object as inserting it once. -/
theorem AIUpscaler.CacheTexture_twice {σ : Type} (self : AIUpscaler σ) (F : Nat)
    (D : List Byte) (n : Nat) :
    (self.CacheTexture F D n).CacheTexture F D n = self.CacheTexture F D n := by
  simp [AIUpscaler.CacheTexture, CacheMap.assign_assign]

/-- C1, as stated, fails for a result of 0 bytes: after `CacheTexture(h, R, 0)` the
lookup `IsCached(h)` reports the hit, but `GetCached(h)` returns the null pointer, which
is what it returns on the cache that never held anything under `h`. -/
theorem C1_counterexample :
    (freshUpscaler.CacheTexture (AIUpscaler.ComputeHash sumHash [1, 2, 3] 3) [] 0).IsCached
        (AIUpscaler.ComputeHash sumHash [1, 2, 3] 3) = true
    ∧ (freshUpscaler.CacheTexture (AIUpscaler.ComputeHash sumHash [1, 2, 3] 3) [] 0).GetCached
        (AIUpscaler.ComputeHash sumHash [1, 2, 3] 3) ≠ some []
    ∧ (freshUpscaler.CacheTexture (AIUpscaler.ComputeHash sumHash [1, 2, 3] 3) [] 0).GetCached
        (AIUpscaler.ComputeHash sumHash [1, 2, 3] 3) = none
    ∧ freshUpscaler.GetCached (AIUpscaler.ComputeHash sumHash [1, 2, 3] 3) = none := by
  decide

/-- C1, amended: two buffers of `size` bytes with the same bytes (whatever lies behind
them in memory) get the same fingerprint, which is `XXH64` of those bytes with seed 0 as
a 64-bit value; and once a result `R` of `n` bytes is stored under the fingerprint of
the first, `IsCached` under the fingerprint of the second reports a hit, whatever the
cache held before, and for `n > 0` so does `GetCached`, with exactly the bytes `R`. -/
theorem C1_determinism_and_cache_hit {σ : Type} (XXH64 : List Byte → Nat → Nat)
    (self : AIUpscaler σ) (data data' R : List Byte) (size n : Nat)
    (hB : data'.take size = data.take size) (hn : R.length = n) :
    AIUpscaler.ComputeHash XXH64 data size = AIUpscaler.ComputeHash XXH64 data' size
    ∧ AIUpscaler.ComputeHash XXH64 data size = XXH64 (data.take size) 0 % 2 ^ 64
    ∧ AIUpscaler.ComputeHash XXH64 data size < 2 ^ 64
    ∧ (self.CacheTexture (AIUpscaler.ComputeHash XXH64 data size) R n).IsCached
        (AIUpscaler.ComputeHash XXH64 data' size) = true
    ∧ (0 < n →
        (self.CacheTexture (AIUpscaler.ComputeHash XXH64 data size) R n).GetCached
          (AIUpscaler.ComputeHash XXH64 data' size) = some R) := by
  have hhash : AIUpscaler.ComputeHash XXH64 data' size
      = AIUpscaler.ComputeHash XXH64 data size := by
    unfold AIUpscaler.ComputeHash
    rw [hB]
  subst hn
  rw [hhash]
  refine ⟨rfl, rfl, Nat.mod_lt _ (by norm_num), ?_, ?_⟩
  · simp [AIUpscaler.IsCached, AIUpscaler.CacheTexture, CacheMap.find_assign_same]
  · intro hpos
    have hne : R ≠ [] := List.ne_nil_of_length_pos hpos
    simp [AIUpscaler.GetCached, AIUpscaler.CacheTexture, CacheMap.find_assign_same, hne]

theorem C1_determinism_and_cache_hit_witness :
    List.take 3 ([1, 2, 3, 9] : List Byte) = List.take 3 ([1, 2, 3, 4, 5] : List Byte)
    ∧ ([7, 8] : List Byte).length = 2
    ∧ AIUpscaler.ComputeHash sumHash [1, 2, 3, 4, 5] 3
        = AIUpscaler.ComputeHash sumHash [1, 2, 3, 9] 3
    ∧ ((⟨(), [(6, [9])], 0⟩ : AIUpscaler Unit).CacheTexture
          (AIUpscaler.ComputeHash sumHash [1, 2, 3, 4, 5] 3) [7, 8] 2).IsCached
        (AIUpscaler.ComputeHash sumHash [1, 2, 3, 9] 3) = true
    ∧ ((⟨(), [(6, [9])], 0⟩ : AIUpscaler Unit).CacheTexture
          (AIUpscaler.ComputeHash sumHash [1, 2, 3, 4, 5] 3) [7, 8] 2).GetCached
        (AIUpscaler.ComputeHash sumHash [1, 2, 3, 9] 3) = some [7, 8] :=
  ⟨rfl, rfl,
   (C1_determinism_and_cache_hit sumHash ⟨(), [(6, [9])], 0⟩ [1, 2, 3, 4, 5] [1, 2, 3, 9]
      [7, 8] 3 2 rfl rfl).1,
   (C1_determinism_and_cache_hit sumHash ⟨(), [(6, [9])], 0⟩ [1, 2, 3, 4, 5] [1, 2, 3, 9]
      [7, 8] 3 2 rfl rfl).2.2.2.1,
   (C1_determinism_and_cache_hit sumHash ⟨(), [(6, [9])], 0⟩ [1, 2, 3, 4, 5] [1, 2, 3, 9]
      [7, 8] 3 2 rfl rfl).2.2.2.2 (by decide)⟩

/-- C3: performing `CacheTexture(F, D, n)` twice in a row leaves the cache observably
identical to performing it once: `IsCached(G)` and the bytes of `GetCached(G)` agree for
every fingerprint `G`. -/
theorem C3_cache_insert_idempotent {σ : Type} (self : AIUpscaler σ) (F : Nat)
    (D : List Byte) (n : Nat) (G : Nat) :
    ((self.CacheTexture F D n).CacheTexture F D n).IsCached G
        = (self.CacheTexture F D n).IsCached G
    ∧ ((self.CacheTexture F D n).CacheTexture F D n).GetCached G
        = (self.CacheTexture F D n).GetCached G := by
  rw [AIUpscaler.CacheTexture_twice]
  exact ⟨rfl, rfl⟩

/-- C4, as stated, fails: whatever 64-bit routine stands for `XXH64`, two different
buffers of equal length share a fingerprint (there are more 9-byte buffers than 64-bit
values). -/
theorem C4_counterexample :
    ¬ ∃ XXH64 : List Byte → Nat → Nat, ∀ B1 B2 : List Byte,
        B1.length = B2.length → B1 ≠ B2 →
        AIUpscaler.ComputeHash XXH64 B1 B1.length ≠ AIUpscaler.ComputeHash XXH64 B2 B2.length := by
  rintro ⟨XXH64, hinj⟩
  let f : (Fin 9 → Byte) → Fin (2 ^ 64) := fun v =>
    ⟨AIUpscaler.ComputeHash XXH64 (List.ofFn v) (List.ofFn v).length,
      Nat.mod_lt _ (by norm_num)⟩
  have hf : Function.Injective f := by
    intro v v' hvv
    by_contra hne
    have hl : List.ofFn v ≠ List.ofFn v' := fun h => hne (List.ofFn_injective h)
    have := hinj (List.ofFn v) (List.ofFn v') (by simp) hl
    exact this (congrArg Fin.val hvv)
  have hcard := Fintype.card_le_of_injective f hf
  simp only [Fintype.card_pi, Fintype.card_fin, Finset.prod_const, Finset.card_univ] at hcard
  norm_num at hcard

/-- C4, amended: an insertion under one fingerprint changes the lookups under no other
fingerprint. For buffers `B1`, `B2` whose fingerprints differ, after
`CacheTexture(ComputeHash(B1), R1, n)` both `IsCached` and `GetCached` of
`ComputeHash(B2)` answer as before, so a cache holding nothing for `B2` still reports
not-found. -/
theorem C4_no_stale_reuse {σ : Type} (XXH64 : List Byte → Nat → Nat)
    (self : AIUpscaler σ) (B1 B2 R1 : List Byte) (n : Nat)
    (hdiff : AIUpscaler.ComputeHash XXH64 B1 B1.length
      ≠ AIUpscaler.ComputeHash XXH64 B2 B2.length) :
    (self.CacheTexture (AIUpscaler.ComputeHash XXH64 B1 B1.length) R1 n).IsCached
        (AIUpscaler.ComputeHash XXH64 B2 B2.length)
      = self.IsCached (AIUpscaler.ComputeHash XXH64 B2 B2.length)
    ∧ (self.CacheTexture (AIUpscaler.ComputeHash XXH64 B1 B1.length) R1 n).GetCached
        (AIUpscaler.ComputeHash XXH64 B2 B2.length)
      = self.GetCached (AIUpscaler.ComputeHash XXH64 B2 B2.length)
    ∧ (self.IsCached (AIUpscaler.ComputeHash XXH64 B2 B2.length) = false →
        (self.CacheTexture (AIUpscaler.ComputeHash XXH64 B1 B1.length) R1 n).IsCached
            (AIUpscaler.ComputeHash XXH64 B2 B2.length) = false
        ∧ (self.CacheTexture (AIUpscaler.ComputeHash XXH64 B1 B1.length) R1 n).GetCached
            (AIUpscaler.ComputeHash XXH64 B2 B2.length) = none) := by
  have hfind := CacheMap.find_assign_other self.cache_ _ _ (R1.take n) hdiff
  refine ⟨?_, ?_, ?_⟩
  · simp [AIUpscaler.IsCached, AIUpscaler.CacheTexture, hfind]
  · simp [AIUpscaler.GetCached, AIUpscaler.CacheTexture, hfind]
  · intro hmiss
    simp only [AIUpscaler.IsCached, AIUpscaler.CacheTexture, AIUpscaler.GetCached, hfind] at hmiss ⊢
    cases h : self.cache_.find (AIUpscaler.ComputeHash XXH64 B2 B2.length) with
    | none => simp
    | some v => simp [h] at hmiss

/-! ## Binding and unbinding -/

@[simp] theorem State.log_handle {σ : Type} (s : State σ) (e : Event) :
    (s.log e).g_plugin_handle = s.g_plugin_handle := rfl

@[simp] theorem State.log_plugin {σ : Type} (s : State σ) (e : Event) :
    (s.log e).plugin = s.plugin := rfl

@[simp] theorem State.log_trace {σ : Type} (s : State σ) (e : Event) :
    (s.log e).trace = s.trace ++ [e] := rfl

@[simp] theorem State.resolve_handle {σ : Type} (s : State σ) (m : Module σ) :
    (s.resolve m).g_plugin_handle = some m := rfl

@[simp] theorem State.resolve_plugin {σ : Type} (s : State σ) (m : Module σ) :
    (s.resolve m).plugin = s.plugin := rfl

@[simp] theorem State.resolve_trace {σ : Type} (s : State σ) (m : Module σ) :
    (s.resolve m).trace = s.trace := rfl

@[simp] theorem State.unload_handle {σ : Type} (s : State σ) :
    s.unload.g_plugin_handle = none := rfl

@[simp] theorem State.unload_plugin {σ : Type} (s : State σ) :
    s.unload.plugin = s.plugin := rfl

@[simp] theorem State.unload_trace {σ : Type} (s : State σ) :
    s.unload.trace = s.trace ++ [Event.dlclose] := rfl

/-- A bind while already bound changes nothing and reports success. -/
theorem lumina_init_plugin_bound {σ : Type} (env : Env σ) (s : State σ) (path : String)
    (hs : s.g_plugin_handle.isSome = true) : lumina_init_plugin env s path = (s, true) := by
  simp [lumina_init_plugin, hs]

/-- The library cannot be loaded. -/
theorem lumina_init_plugin_no_library {σ : Type} (env : Env σ) (s : State σ) (path : String)
    (hs : s.g_plugin_handle = none) (hd : env.dlopen path = none) :
    lumina_init_plugin env s path
      = ({ s.log (Event.dlopen path) with g_plugin_handle := none }, false) := by
  simp [lumina_init_plugin, hs, hd]

/-- A required symbol is missing. -/
theorem lumina_init_plugin_no_symbol {σ : Type} (env : Env σ) (s : State σ) (path : String)
    (m : Module σ) (hs : s.g_plugin_handle = none) (hd : env.dlopen path = some m)
    (hm : (m.lumina_init.isNone || m.lumina_shutdown.isNone
      || m.lumina_process_texture.isNone) = true) :
    lumina_init_plugin env s path = (((s.log (Event.dlopen path)).resolve m).unload, false) := by
  simp only [lumina_init_plugin, hs, hd, Option.isSome_none, Bool.false_eq_true, ↓reduceIte]
  cases hi : m.lumina_init with
  | none => simp [State.resolve, hi]
  | some init =>
    have hm' : (m.lumina_shutdown.isNone || m.lumina_process_texture.isNone) = true := by
      simpa [hi] using hm
    simp [State.resolve, hi, hm']

/-- The required symbols are there and `lumina_init` returns something other than 1. -/
theorem lumina_init_plugin_init_fails {σ : Type} (env : Env σ) (s : State σ) (path : String)
    (m : Module σ) (init : σ → σ × Int)
    (hs : s.g_plugin_handle = none) (hd : env.dlopen path = some m)
    (hi : m.lumina_init = some init) (hsd : m.lumina_shutdown.isSome = true)
    (hp : m.lumina_process_texture.isSome = true) (hr : (init s.plugin).2 ≠ 1) :
    lumina_init_plugin env s path
      = (State.unload { ((s.log (Event.dlopen path)).resolve m).log (Event.call Sym.lumina_init)
            with plugin := (init s.plugin).1 }, false) := by
  have hsd' : m.lumina_shutdown.isNone = false := by
    cases h : m.lumina_shutdown <;> simp [h] at hsd ⊢
  have hp' : m.lumina_process_texture.isNone = false := by
    cases h : m.lumina_process_texture <;> simp [h] at hp ⊢
  simp only [lumina_init_plugin, hs, hd, Option.isSome_none, Bool.false_eq_true, ↓reduceIte]
  simp [State.resolve, State.log, hi, hsd', hp', hr]

/-- The required symbols are there and `lumina_init` returns 1. -/
theorem lumina_init_plugin_ok {σ : Type} (env : Env σ) (s : State σ) (path : String)
    (m : Module σ) (init : σ → σ × Int)
    (hs : s.g_plugin_handle = none) (hd : env.dlopen path = some m)
    (hi : m.lumina_init = some init) (hsd : m.lumina_shutdown.isSome = true)
    (hp : m.lumina_process_texture.isSome = true) (hr : (init s.plugin).2 = 1) :
    lumina_init_plugin env s path
      = ({ ((s.log (Event.dlopen path)).resolve m).log (Event.call Sym.lumina_init)
            with plugin := (init s.plugin).1 }, true) := by
  have hsd' : m.lumina_shutdown.isNone = false := by
    cases h : m.lumina_shutdown <;> simp [h] at hsd ⊢
  have hp' : m.lumina_process_texture.isNone = false := by
    cases h : m.lumina_process_texture <;> simp [h] at hp ⊢
  simp only [lumina_init_plugin, hs, hd, Option.isSome_none, Bool.false_eq_true, ↓reduceIte]
  simp [State.resolve, State.log, hi, hsd', hp', hr]

/-- From the unbound state, the bind reports failure exactly in the three failure cases. -/
theorem lumina_init_plugin_ret {σ : Type} (env : Env σ) (s : State σ) (path : String)
    (hs : s.g_plugin_handle = none) :
    (lumina_init_plugin env s path).2 = !bindFailure env s path := by
  unfold bindFailure
  cases hd : env.dlopen path with
  | none => simp [lumina_init_plugin_no_library env s path hs hd]
  | some m =>
    cases hi : m.lumina_init with
    | none => simp [lumina_init_plugin_no_symbol env s path m hs hd (by simp [hi]), hi]
    | some init =>
      cases hsd : m.lumina_shutdown with
      | none => simp [lumina_init_plugin_no_symbol env s path m hs hd (by simp [hsd]), hi, hsd]
      | some sd =>
        cases hp : m.lumina_process_texture with
        | none => simp [lumina_init_plugin_no_symbol env s path m hs hd (by simp [hp]), hi, hp]
        | some pr =>
          by_cases hr : (init s.plugin).2 = 1
          · simp [lumina_init_plugin_ok env s path m init hs hd hi (by simp [hsd])
              (by simp [hp]) hr, hr, hi, hsd, hp]
          · simp [lumina_init_plugin_init_fails env s path m init hs hd hi (by simp [hsd])
              (by simp [hp]) hr, hr, hi, hsd, hp]

/-- After a bind that reports failure the handle is `NULL`, and the attempt began with a
load of the library. -/
theorem lumina_init_plugin_failed {σ : Type} (env : Env σ) (s : State σ) (path : String)
    (hfalse : (lumina_init_plugin env s path).2 = false) :
    s.g_plugin_handle = none
    ∧ (lumina_init_plugin env s path).1.g_plugin_handle = none
    ∧ ∃ rest, (lumina_init_plugin env s path).1.trace
        = s.trace ++ Event.dlopen path :: rest := by
  have hs : s.g_plugin_handle = none := by
    cases h : s.g_plugin_handle with
    | none => rfl
    | some m0 => simp [lumina_init_plugin_bound env s path (by simp [h])] at hfalse
  refine ⟨hs, ?_⟩
  cases hd : env.dlopen path with
  | none =>
    rw [lumina_init_plugin_no_library env s path hs hd]
    exact ⟨rfl, [], rfl⟩
  | some m =>
    by_cases hm : (m.lumina_init.isNone || m.lumina_shutdown.isNone
        || m.lumina_process_texture.isNone) = true
    · rw [lumina_init_plugin_no_symbol env s path m hs hd hm]
      exact ⟨rfl, [Event.dlclose], by simp⟩
    · simp only [Bool.or_eq_true, not_or, Bool.not_eq_true, Option.isNone_eq_false_iff] at hm
      obtain ⟨⟨hi, hsd⟩, hp⟩ := hm
      obtain ⟨init, hi⟩ := Option.isSome_iff_exists.mp hi
      by_cases hr : (init s.plugin).2 = 1
      · rw [lumina_init_plugin_ok env s path m init hs hd hi hsd hp hr] at hfalse
        simp at hfalse
      · rw [lumina_init_plugin_init_fails env s path m init hs hd hi hsd hp hr]
        exact ⟨rfl, [Event.call Sym.lumina_init, Event.dlclose], by simp⟩

theorem lumina_shutdown_plugin_unbound {σ : Type} (s : State σ) :
    (lumina_shutdown_plugin s).g_plugin_handle = none := by
  unfold lumina_shutdown_plugin
  cases h : s.g_plugin_handle <;> simp [h]

/-- From the unbound state every bind attempt begins with a load of the library. -/
theorem lumina_init_plugin_loads {σ : Type} (env : Env σ) (s : State σ) (path : String)
    (hs : s.g_plugin_handle = none) :
    ∃ rest, (lumina_init_plugin env s path).1.trace = s.trace ++ Event.dlopen path :: rest := by
  cases hd : env.dlopen path with
  | none =>
    rw [lumina_init_plugin_no_library env s path hs hd]
    exact ⟨[], rfl⟩
  | some m =>
    by_cases hm : (m.lumina_init.isNone || m.lumina_shutdown.isNone
        || m.lumina_process_texture.isNone) = true
    · rw [lumina_init_plugin_no_symbol env s path m hs hd hm]
      exact ⟨[Event.dlclose], by simp⟩
    · simp only [Bool.or_eq_true, not_or, Bool.not_eq_true, Option.isNone_eq_false_iff] at hm
      obtain ⟨⟨hi, hsd⟩, hp⟩ := hm
      obtain ⟨init, hi⟩ := Option.isSome_iff_exists.mp hi
      by_cases hr : (init s.plugin).2 = 1
      · rw [lumina_init_plugin_ok env s path m init hs hd hi hsd hp hr]
        exact ⟨[Event.call Sym.lumina_init], by simp⟩
      · rw [lumina_init_plugin_init_fails env s path m init hs hd hi hsd hp hr]
        exact ⟨[Event.call Sym.lumina_init, Event.dlclose], by simp⟩

/-! ## The wrappers without a bound module -/

theorem lumina_upscale_unbound {σ : Type} (env : Env σ) (s : State σ)
    (hs : s.g_plugin_handle = none) (input : List Byte) (w h : Int) (outs : Outs) :
    lumina_upscale env s input w h outs = { state := s, ret := false, outs := outs } := by
  simp [lumina_upscale, hs]

theorem lumina_upscale_async_unbound {σ : Type} (s : State σ)
    (hs : s.g_plugin_handle = none) (input : List Byte) (w h : Int) :
    lumina_upscale_async s input w h = (s, 0) := by
  simp [lumina_upscale_async, hs]

theorem lumina_async_status_unbound {σ : Type} (s : State σ)
    (hs : s.g_plugin_handle = none) (id : Int) : lumina_async_status s id = (s, -1) := by
  simp [lumina_async_status, hs]

theorem lumina_async_result_unbound {σ : Type} (s : State σ)
    (hs : s.g_plugin_handle = none) (id : Int) (outs : Outs) :
    lumina_async_result s id outs = { state := s, ret := false, outs := outs } := by
  simp [lumina_async_result, hs]

theorem lumina_get_enabled_unbound {σ : Type} (s : State σ)
    (hs : s.g_plugin_handle = none) : lumina_get_enabled s = (s, 0) := by
  simp [lumina_get_enabled, hs]

theorem lumina_get_osd_enabled_unbound {σ : Type} (s : State σ)
    (hs : s.g_plugin_handle = none) : lumina_get_osd_enabled s = (s, 0) := by
  simp [lumina_get_osd_enabled, hs]

theorem lumina_set_enabled_unbound {σ : Type} (s : State σ)
    (hs : s.g_plugin_handle = none) (enabled : Int) : lumina_set_enabled s enabled = s := by
  simp [lumina_set_enabled, hs]

theorem lumina_set_osd_enabled_unbound {σ : Type} (s : State σ)
    (hs : s.g_plugin_handle = none) (enabled : Int) :
    lumina_set_osd_enabled s enabled = s := by
  simp [lumina_set_osd_enabled, hs]

theorem lumina_render_osd_unbound {σ : Type} (s : State σ)
    (hs : s.g_plugin_handle = none) : lumina_render_osd s = s := by
  simp [lumina_render_osd, hs]

theorem lumina_shutdown_plugin_noop {σ : Type} (s : State σ)
    (hs : s.g_plugin_handle = none) : lumina_shutdown_plugin s = s := by
  simp [lumina_shutdown_plugin, hs]

/-- C5: when no module is bound, every entry point returns its unsupported/disabled
result, writes nothing through its out-parameters and leaves the whole state, the record
of outside calls included, as it was: no plugin function is called. The handle is `NULL`
at program start, after `lumina_shutdown_plugin`, and after a `lumina_init_plugin` that
returned false. -/
theorem C5_unbound_safe {σ : Type} (env : Env σ) (s : State σ)
    (hs : s.g_plugin_handle = none)
    (input : List Byte) (w h id enabled : Int) (outs : Outs) :
    lumina_upscale env s input w h outs = { state := s, ret := false, outs := outs }
    ∧ lumina_upscale_async s input w h = (s, 0)
    ∧ lumina_async_status s id = (s, -1)
    ∧ lumina_async_result s id outs = { state := s, ret := false, outs := outs }
    ∧ lumina_get_enabled s = (s, 0)
    ∧ lumina_get_osd_enabled s = (s, 0)
    ∧ lumina_set_enabled s enabled = s
    ∧ lumina_set_osd_enabled s enabled = s
    ∧ lumina_render_osd s = s
    ∧ (∀ p : σ, (State.initial p).g_plugin_handle = none)
    ∧ (∀ s0 : State σ, (lumina_shutdown_plugin s0).g_plugin_handle = none)
    ∧ (∀ (s0 : State σ) (path : String), (lumina_init_plugin env s0 path).2 = false →
        (lumina_init_plugin env s0 path).1.g_plugin_handle = none) :=
  ⟨lumina_upscale_unbound env s hs input w h outs,
   lumina_upscale_async_unbound s hs input w h,
   lumina_async_status_unbound s hs id,
   lumina_async_result_unbound s hs id outs,
   lumina_get_enabled_unbound s hs,
   lumina_get_osd_enabled_unbound s hs,
   lumina_set_enabled_unbound s hs enabled,
   lumina_set_osd_enabled_unbound s hs enabled,
   lumina_render_osd_unbound s hs,
   fun _ => rfl,
   lumina_shutdown_plugin_unbound,
   fun s0 path hfalse => (lumina_init_plugin_failed env s0 path hfalse).2.1⟩

/-- C7: a bind attempt from the unbound state that fails (no library, a required symbol
missing, or `lumina_init` not returning 1) returns false and clears the handle; afterwards
every entry point leaves the state alone and answers as it does on the never-bound state,
whatever optional symbols the attempt resolved, and a later `lumina_init_plugin` starts
with a fresh load and gives the verdict it gives from the never-bound state. -/
theorem C7_bind_failure_rolls_back {σ : Type} (env : Env σ) (s : State σ) (path : String)
    (hs : s.g_plugin_handle = none) (hfail : bindFailure env s path = true)
    (input : List Byte) (w h id enabled : Int) (outs : Outs) (later : String) :
    ∃ s', lumina_init_plugin env s path = (s', false)
      ∧ s'.g_plugin_handle = none
      ∧ lumina_upscale env s' input w h outs = { state := s', ret := false, outs := outs }
      ∧ (lumina_upscale env (State.initial s'.plugin) input w h outs).ret = false
      ∧ (lumina_upscale env (State.initial s'.plugin) input w h outs).outs = outs
      ∧ lumina_upscale_async s' input w h = (s', 0)
      ∧ (lumina_upscale_async (State.initial s'.plugin) input w h).2 = 0
      ∧ lumina_async_status s' id = (s', -1)
      ∧ (lumina_async_status (State.initial s'.plugin) id).2 = -1
      ∧ lumina_async_result s' id outs = { state := s', ret := false, outs := outs }
      ∧ (lumina_async_result (State.initial s'.plugin) id outs).ret = false
      ∧ (lumina_async_result (State.initial s'.plugin) id outs).outs = outs
      ∧ lumina_get_enabled s' = (s', 0)
      ∧ (lumina_get_enabled (State.initial s'.plugin)).2 = 0
      ∧ lumina_get_osd_enabled s' = (s', 0)
      ∧ (lumina_get_osd_enabled (State.initial s'.plugin)).2 = 0
      ∧ lumina_set_enabled s' enabled = s'
      ∧ lumina_set_osd_enabled s' enabled = s'
      ∧ lumina_render_osd s' = s'
      ∧ lumina_shutdown_plugin s' = s'
      ∧ (∃ rest, (lumina_init_plugin env s' later).1.trace
          = s'.trace ++ Event.dlopen later :: rest)
      ∧ (lumina_init_plugin env s' later).2
          = (lumina_init_plugin env (State.initial s'.plugin) later).2 := by
  have hret : (lumina_init_plugin env s path).2 = false := by
    rw [lumina_init_plugin_ret env s path hs, hfail]; rfl
  have hs' := (lumina_init_plugin_failed env s path hret).2.1
  have h0 : ∀ p : σ, (State.initial p).g_plugin_handle = none := fun _ => rfl
  refine ⟨(lumina_init_plugin env s path).1, Prod.ext rfl hret, hs',
    lumina_upscale_unbound env _ hs' input w h outs, ?_, ?_,
    lumina_upscale_async_unbound _ hs' input w h, ?_,
    lumina_async_status_unbound _ hs' id, ?_,
    lumina_async_result_unbound _ hs' id outs, ?_, ?_,
    lumina_get_enabled_unbound _ hs', ?_,
    lumina_get_osd_enabled_unbound _ hs', ?_,
    lumina_set_enabled_unbound _ hs' enabled,
    lumina_set_osd_enabled_unbound _ hs' enabled,
    lumina_render_osd_unbound _ hs',
    lumina_shutdown_plugin_noop _ hs',
    lumina_init_plugin_loads env _ later hs', ?_⟩
  · rw [lumina_upscale_unbound env _ (h0 _)]
  · rw [lumina_upscale_unbound env _ (h0 _)]
  · rw [lumina_upscale_async_unbound _ (h0 _)]
  · rw [lumina_async_status_unbound _ (h0 _)]
  · rw [lumina_async_result_unbound _ (h0 _)]
  · rw [lumina_async_result_unbound _ (h0 _)]
  · rw [lumina_get_enabled_unbound _ (h0 _)]
  · rw [lumina_get_osd_enabled_unbound _ (h0 _)]
  · rw [lumina_init_plugin_ret env _ later hs', lumina_init_plugin_ret env _ later (h0 _)]
    rfl

theorem C5_unbound_safe_witness :
    (State.initial 0 : State Nat).g_plugin_handle = none
    ∧ lumina_upscale testEnv (State.initial 0) zeroTexture 64 64 ⟨none, 7, 9⟩
        = { state := State.initial 0, ret := false, outs := ⟨none, 7, 9⟩ }
    ∧ lumina_upscale_async (State.initial (0 : Nat)) zeroTexture 64 64 = (State.initial 0, 0)
    ∧ lumina_async_status (State.initial (0 : Nat)) 5 = (State.initial 0, -1) :=
  ⟨rfl,
   (C5_unbound_safe testEnv (State.initial 0) rfl zeroTexture 64 64 5 1 ⟨none, 7, 9⟩).1,
   (C5_unbound_safe testEnv (State.initial 0) rfl zeroTexture 64 64 5 1 ⟨none, 7, 9⟩).2.1,
   (C5_unbound_safe testEnv (State.initial 0) rfl zeroTexture 64 64 5 1 ⟨none, 7, 9⟩).2.2.1⟩

theorem C7_bind_failure_rolls_back_witness :
    (State.initial 0 : State Nat).g_plugin_handle = none
    ∧ bindFailure testEnv (State.initial 0) "failing.so" = true
    ∧ ∃ s', lumina_init_plugin testEnv (State.initial 0) "failing.so" = (s', false)
        ∧ s'.g_plugin_handle = none :=
  ⟨rfl, by decide,
   (C7_bind_failure_rolls_back testEnv (State.initial 0) "failing.so" rfl (by decide)
      zeroTexture 64 64 5 1 ⟨none, 7, 9⟩ "scale4.so").imp
    (fun _ hs' => ⟨hs'.1, hs'.2.1⟩)⟩

/-! ## The wrappers on a bound module -/

theorem isNone_of_isSome {α : Type} (o : Option α) (h : o.isSome = true) : o.isNone = false := by
  cases o <;> simp at h ⊢

/-- On a bound module, once the allocation succeeds, the sync entry point is called once;
when it returns 1 the buffer and the reported dimensions are handed to the caller. -/
theorem lumina_upscale_bound_ok {σ : Type} (env : Env σ) (s : State σ)
    (process : σ → List Byte → Int → Int → Int → Int → ProcessRet σ)
    (input : List Byte) (w h : Int) (outs : Outs)
    (hb : s.g_plugin_handle.isSome = true) (hp : s.fn_lumina_process = some process)
    (hm : env.malloc (toSizeT (max_size w h)) = true)
    (hr : (process s.plugin input w h outs.out_w outs.out_h).result = 1) :
    lumina_upscale env s input w h outs =
      { state := afterProcess s w h (process s.plugin input w h outs.out_w outs.out_h).plugin,
        ret := true,
        outs := { output := some { capacity := toSizeT (max_size w h),
                                   bytes := (process s.plugin input w h outs.out_w outs.out_h).stored },
                  out_w := (process s.plugin input w h outs.out_w outs.out_h).out_w,
                  out_h := (process s.plugin input w h outs.out_w outs.out_h).out_h } } := by
  simp [lumina_upscale, isNone_of_isSome _ hb, hp, hm, hr, afterProcess]

/-- On a bound module, once the allocation succeeds, the sync entry point is called once;
when it returns anything but 1 the buffer is freed, `*output` is `NULL` and the call
returns false. -/
theorem lumina_upscale_bound_fail {σ : Type} (env : Env σ) (s : State σ)
    (process : σ → List Byte → Int → Int → Int → Int → ProcessRet σ)
    (input : List Byte) (w h : Int) (outs : Outs)
    (hb : s.g_plugin_handle.isSome = true) (hp : s.fn_lumina_process = some process)
    (hm : env.malloc (toSizeT (max_size w h)) = true)
    (hr : (process s.plugin input w h outs.out_w outs.out_h).result ≠ 1) :
    lumina_upscale env s input w h outs =
      { state := (afterProcess s w h
            (process s.plugin input w h outs.out_w outs.out_h).plugin).log Event.free,
        ret := false,
        outs := { output := none,
                  out_w := (process s.plugin input w h outs.out_w outs.out_h).out_w,
                  out_h := (process s.plugin input w h outs.out_w outs.out_h).out_h } } := by
  simp [lumina_upscale, isNone_of_isSome _ hb, hp, hm, hr, afterProcess]

/-- C6: a module that exports `lumina_init`, `lumina_shutdown` and
`lumina_process_texture` and whose `lumina_init` returns 1 binds from the unbound state,
whichever of the async, toggle and OSD symbols it lacks. Each absent optional symbol
disables only its own wrapper: without `lumina_upscale_async` the async submit returns
the reserved id 0 and calls nothing, while `lumina_upscale` still calls the module's sync
entry point and returns true exactly when that returns 1. -/
theorem C6_optional_capability_absent {σ : Type} (env : Env σ) (s : State σ) (path : String)
    (m : Module σ) (init : σ → σ × Int)
    (process : σ → List Byte → Int → Int → Int → Int → ProcessRet σ)
    (hs : s.g_plugin_handle = none) (hd : env.dlopen path = some m)
    (hi : m.lumina_init = some init) (hsd : m.lumina_shutdown.isSome = true)
    (hp : m.lumina_process_texture = some process) (hr : (init s.plugin).2 = 1)
    (input : List Byte) (w h id enabled : Int) (outs : Outs) :
    ∃ s', lumina_init_plugin env s path = (s', true)
      ∧ s'.g_plugin_handle = some m
      ∧ (m.lumina_upscale_async = none → lumina_upscale_async s' input w h = (s', 0))
      ∧ (m.lumina_async_status = none → lumina_async_status s' id = (s', -1))
      ∧ (m.lumina_async_result = none →
          lumina_async_result s' id outs = { state := s', ret := false, outs := outs })
      ∧ (m.lumina_set_enabled = none → lumina_set_enabled s' enabled = s')
      ∧ (m.lumina_get_enabled = none → lumina_get_enabled s' = (s', 0))
      ∧ (m.lumina_set_osd_enabled = none → lumina_set_osd_enabled s' enabled = s')
      ∧ (m.lumina_get_osd_enabled = none → lumina_get_osd_enabled s' = (s', 0))
      ∧ (m.lumina_render_osd = none → lumina_render_osd s' = s')
      ∧ (env.malloc (toSizeT (max_size w h)) = true →
          (lumina_upscale env s' input w h outs).ret
              = decide ((process s'.plugin input w h outs.out_w outs.out_h).result = 1)
          ∧ (lumina_upscale env s' input w h outs).state.plugin
              = (process s'.plugin input w h outs.out_w outs.out_h).plugin
          ∧ (lumina_upscale env s' input w h outs).outs.out_w
              = (process s'.plugin input w h outs.out_w outs.out_h).out_w
          ∧ (lumina_upscale env s' input w h outs).outs.out_h
              = (process s'.plugin input w h outs.out_w outs.out_h).out_h
          ∧ (lumina_upscale env s' input w h outs).state.trace.count
                (Event.call Sym.lumina_process_texture)
              = s'.trace.count (Event.call Sym.lumina_process_texture) + 1) := by
  have hp' : m.lumina_process_texture.isSome = true := by simp [hp]
  refine ⟨_, lumina_init_plugin_ok env s path m init hs hd hi hsd hp' hr, rfl,
    ?_, ?_, ?_, ?_, ?_, ?_, ?_, ?_, ?_⟩
  · intro hn; simp [lumina_upscale_async, State.resolve, State.log, hn]
  · intro hn; simp [lumina_async_status, State.resolve, State.log, hn]
  · intro hn; simp [lumina_async_result, State.resolve, State.log, hn]
  · intro hn; simp [lumina_set_enabled, State.resolve, State.log, hn]
  · intro hn; simp [lumina_get_enabled, State.resolve, State.log, hn]
  · intro hn; simp [lumina_set_osd_enabled, State.resolve, State.log, hn]
  · intro hn; simp [lumina_get_osd_enabled, State.resolve, State.log, hn]
  · intro hn; simp [lumina_render_osd, State.resolve, State.log, hn]
  · intro hmalloc
    by_cases hres : (process (init s.plugin).1 input w h outs.out_w outs.out_h).result = 1
    · simp [lumina_upscale, State.resolve, State.log, hp, hmalloc, hres, List.count_append]
    · simp [lumina_upscale, State.resolve, State.log, hp, hmalloc, hres, List.count_append]

theorem C6_optional_capability_absent_witness :
    (State.initial 0 : State Nat).g_plugin_handle = none
    ∧ testEnv.dlopen "scale4.so" = some scale4Plugin
    ∧ scale4Plugin.lumina_shutdown.isSome = true
    ∧ scale4Plugin.lumina_upscale_async.isNone = true
    ∧ ∃ s', lumina_init_plugin testEnv (State.initial 0) "scale4.so" = (s', true)
        ∧ s'.g_plugin_handle = some scale4Plugin
        ∧ lumina_upscale_async s' zeroTexture 64 64 = (s', 0)
        ∧ (lumina_upscale testEnv s' zeroTexture 64 64 ⟨none, 0, 0⟩).ret = true := by
  refine ⟨rfl, rfl, rfl, rfl, ?_⟩
  obtain ⟨s', h1, h2, h3, -, -, -, -, -, -, -, h4⟩ :=
    C6_optional_capability_absent testEnv (State.initial 0) "scale4.so" scale4Plugin
      (fun n => (n, 1))
      (fun n _ w h _ _ =>
        { plugin := n + 1, result := 1,
          stored := List.replicate (w * 4 * (h * 4) * 3).toNat 0,
          out_w := w * 4, out_h := h * 4 })
      rfl rfl rfl rfl rfl rfl zeroTexture 64 64 5 1 ⟨none, 0, 0⟩
  exact ⟨s', h1, h2, h3 rfl, (h4 rfl).1.trans (by simp)⟩

/-! ## Unsupported and failure -/

/-- C8, as stated, fails: bound to a plugin without the async symbols, the three async
wrappers return the very values they return when bound to a plugin that implements them
and reports failure (submission failed, status Error, nothing to collect). -/
theorem C8_counterexample :
    scale4Bound.g_plugin_handle.isSome = true
    ∧ scale4Bound.fn_lumina_upscale_async.isNone = true
    ∧ scale4Bound.fn_lumina_async_status.isNone = true
    ∧ scale4Bound.fn_lumina_async_result.isNone = true
    ∧ errorBound.g_plugin_handle.isSome = true
    ∧ errorBound.fn_lumina_upscale_async.isSome = true
    ∧ errorBound.fn_lumina_async_status.isSome = true
    ∧ errorBound.fn_lumina_async_result.isSome = true
    ∧ (lumina_upscale_async scale4Bound [0, 0, 0] 1 1).2
        = (lumina_upscale_async errorBound [0, 0, 0] 1 1).2
    ∧ (lumina_async_status scale4Bound 7).2 = (lumina_async_status errorBound 7).2
    ∧ (lumina_async_status errorBound 7).2 = -1
    ∧ (lumina_async_result scale4Bound 7 ⟨none, 0, 0⟩).ret
        = (lumina_async_result errorBound 7 ⟨none, 0, 0⟩).ret := by
  decide

/-- C8, amended: on a bound backend each async wrapper returns a fixed value when the
backend lacks the entry point (0 for `lumina_upscale_async`, -1 for
`lumina_async_status`, false for `lumina_async_result`, with nothing called and nothing
written) and otherwise returns exactly what the module's entry point returns. The fixed
values are the ones a module uses to report failure, so the return value alone does not
tell unsupported from failed. -/
theorem C8_unsupported_values {σ : Type} (s : State σ)
    (hb : s.g_plugin_handle.isSome = true)
    (input : List Byte) (w h id : Int) (outs : Outs) :
    (s.fn_lumina_upscale_async = none → lumina_upscale_async s input w h = (s, 0))
    ∧ (∀ f, s.fn_lumina_upscale_async = some f →
        (lumina_upscale_async s input w h).2 = (f s.plugin input w h).2)
    ∧ (s.fn_lumina_async_status = none → lumina_async_status s id = (s, -1))
    ∧ (∀ f, s.fn_lumina_async_status = some f →
        (lumina_async_status s id).2 = (f s.plugin id).2)
    ∧ (s.fn_lumina_async_result = none →
        lumina_async_result s id outs = { state := s, ret := false, outs := outs })
    ∧ (∀ f, s.fn_lumina_async_result = some f →
        (lumina_async_result s id outs).ret = (f s.plugin id outs).result
        ∧ (lumina_async_result s id outs).outs = (f s.plugin id outs).outs) := by
  have hb' := isNone_of_isSome _ hb
  refine ⟨?_, ?_, ?_, ?_, ?_, ?_⟩
  · intro hn; simp [lumina_upscale_async, hb', hn]
  · intro f hf; simp [lumina_upscale_async, hb', hf]
  · intro hn; simp [lumina_async_status, hb', hn]
  · intro f hf; simp [lumina_async_status, hb', hf]
  · intro hn; simp [lumina_async_result, hb', hn]
  · intro f hf; simp [lumina_async_result, hb', hf]

theorem C8_unsupported_values_witness :
    errorBound.g_plugin_handle.isSome = true
    ∧ (lumina_async_status errorBound 7).2 = -1
    ∧ (lumina_async_result errorBound 7 ⟨none, 0, 0⟩).ret = false :=
  ⟨by decide,
   ((C8_unsupported_values errorBound (by decide) [0, 0, 0] 1 1 7 ⟨none, 0, 0⟩).2.2.2.1
      (fun n _ => (n, -1)) rfl).trans rfl,
   ((C8_unsupported_values errorBound (by decide) [0, 0, 0] 1 1 7 ⟨none, 0, 0⟩).2.2.2.2.2
      (fun n _ outs => { plugin := n, result := false, outs := outs }) rfl).1.trans rfl⟩

/-! ## The capacity of the output buffer -/

theorem wrapInt32_of_range (x : Int) (h0 : 0 ≤ x) (h1 : x < 2 ^ 31) : wrapInt32 x = x := by
  unfold wrapInt32
  have : (x + 2 ^ 31) % 2 ^ 32 = x + 2 ^ 31 :=
    Int.emod_eq_of_lt (by omega) (by omega)
  omega

theorem toSizeT_of_range (x : Int) (h0 : 0 ≤ x) (h1 : x < 2 ^ 31) :
    (toSizeT x : Int) = x := by
  unfold toSizeT
  have : x % 2 ^ 64 = x := Int.emod_eq_of_lt h0 (by omega)
  rw [this]
  exact Int.toNat_of_nonneg h0

/-- While `48 * w * h` fits an `int`, `max_size` is `16 * (w * h * 3)`. -/
theorem max_size_of_range (w h : Int) (hw : 0 < w) (hh : 0 < h)
    (hfit : 48 * w * h < 2 ^ 31) : max_size w h = 16 * (w * h * 3) := by
  have hwh : 0 < w * h := Int.mul_pos hw hh
  have h1 : w ≤ w * h := by nlinarith
  have h48 : 48 * w * h = 48 * (w * h) := by ring
  rw [h48] at hfit
  unfold max_size
  rw [wrapInt32_of_range (w * 4) (by omega) (by omega)]
  rw [wrapInt32_of_range (w * 4 * h) (by nlinarith) (by nlinarith)]
  rw [wrapInt32_of_range (w * 4 * h * 4) (by nlinarith) (by nlinarith)]
  rw [wrapInt32_of_range (w * 4 * h * 4 * 3) (by nlinarith) (by nlinarith)]
  ring

/-- While `48 * w * h` fits an `int`, the buffer handed to the module has capacity
`16 * (w * h * 3)`, every output of at most `4w x 4h` pixels fits in it, and a reported
failure frees the buffer, leaves `*output` `NULL` and returns false. -/
theorem lumina_upscale_capacity_of_range {σ : Type} (env : Env σ) (s : State σ)
    (process : σ → List Byte → Int → Int → Int → Int → ProcessRet σ)
    (input : List Byte) (w h : Int) (outs : Outs)
    (hb : s.g_plugin_handle.isSome = true) (hp : s.fn_lumina_process = some process)
    (hm : env.malloc (toSizeT (max_size w h)) = true)
    (hw : 0 < w) (hh : 0 < h) (hfit : 48 * w * h < 2 ^ 31) :
    (toSizeT (max_size w h) : Int) = 16 * (w * h * 3)
    ∧ Event.malloc (toSizeT (max_size w h)) ∈ (lumina_upscale env s input w h outs).state.trace
    ∧ (∀ out_w out_h : Int, 0 ≤ out_w → 0 ≤ out_h → out_w ≤ 4 * w → out_h ≤ 4 * h →
        out_w * out_h * 3 ≤ (toSizeT (max_size w h) : Int))
    ∧ ((process s.plugin input w h outs.out_w outs.out_h).result = 1 →
        (lumina_upscale env s input w h outs).ret = true
        ∧ ((lumina_upscale env s input w h outs).outs.output.map Buffer.capacity
            = some (toSizeT (max_size w h))))
    ∧ ((process s.plugin input w h outs.out_w outs.out_h).result ≠ 1 →
        (lumina_upscale env s input w h outs).ret = false
        ∧ (lumina_upscale env s input w h outs).outs.output = none
        ∧ (lumina_upscale env s input w h outs).state.trace.getLast? = some Event.free) := by
  have hcap : (toSizeT (max_size w h) : Int) = 16 * (w * h * 3) := by
    have hwh : 0 < w * h := Int.mul_pos hw hh
    rw [max_size_of_range w h hw hh hfit]
    exact toSizeT_of_range _ (by nlinarith) (by nlinarith)
  refine ⟨hcap, ?_, ?_, ?_, ?_⟩
  · by_cases hr : (process s.plugin input w h outs.out_w outs.out_h).result = 1
    · rw [lumina_upscale_bound_ok env s process input w h outs hb hp hm hr]
      simp [afterProcess]
    · rw [lumina_upscale_bound_fail env s process input w h outs hb hp hm hr]
      simp [afterProcess]
  · intro ow oh h0 h1 h2 h3
    rw [hcap]
    have : ow * oh ≤ 4 * w * (4 * h) := Int.mul_le_mul h2 h3 h1 (by omega)
    nlinarith
  · intro hr
    rw [lumina_upscale_bound_ok env s process input w h outs hb hp hm hr]
    simp
  · intro hr
    rw [lumina_upscale_bound_fail env s process input w h outs hb hp hm hr]
    simp

/-- C10 fails on the code at `w = h = 16384`: the `int` product `w * 4 * h * 4 * 3`
wraps to 0, so the buffer `lumina_upscale` allocates and hands to the module has capacity
0, not `16 * (w * h * 3) = 12884901888`, and not even the unscaled image fits in it. -/
theorem C10_capacity_wraps (input : List Byte) (outs : Outs) :
    max_size 16384 16384 = 0
    ∧ toSizeT (max_size 16384 16384) = 0
    ∧ (16 * (16384 * 16384 * 3) : Int) = 12884901888
    ∧ (lumina_upscale testEnv scale4Bound input 16384 16384 outs).ret = true
    ∧ (lumina_upscale testEnv scale4Bound input 16384 16384 outs).outs.output.map
        Buffer.capacity = some 0
    ∧ Event.malloc 0 ∈ (lumina_upscale testEnv scale4Bound input 16384 16384 outs).state.trace
    ∧ ¬ ((16384 * 16384 * 3 : Int)
        ≤ (toSizeT (max_size 16384 16384) : Int)) := by
  have h0 : max_size 16384 16384 = 0 := by decide
  have h1 : toSizeT (max_size 16384 16384) = 0 := by rw [h0]; decide
  have hb : scale4Bound.g_plugin_handle.isSome = true := by decide
  have hu := lumina_upscale_bound_ok testEnv scale4Bound
    (fun n _ w h _ _ =>
      { plugin := n + 1, result := 1,
        stored := List.replicate (w * 4 * (h * 4) * 3).toNat 0,
        out_w := w * 4, out_h := h * 4 })
    input 16384 16384 outs hb rfl rfl rfl
  have hstate : (lumina_upscale testEnv scale4Bound input 16384 16384 outs).state
      = afterProcess scale4Bound 16384 16384 (scale4Bound.plugin + 1) :=
    congrArg UpscaleRet.state hu
  have hcapacity : (lumina_upscale testEnv scale4Bound input 16384 16384 outs).outs.output.map
      Buffer.capacity = some (toSizeT (max_size 16384 16384)) :=
    congrArg (fun r => r.outs.output.map Buffer.capacity) hu
  refine ⟨h0, h1, by norm_num, congrArg UpscaleRet.ret hu, ?_, ?_, ?_⟩
  · rw [hcapacity, h1]
  · rw [hstate]; simp [afterProcess, h1]
  · rw [h1]; norm_num

/-! ## The upscale entry points and the result cache -/

/-- Every call of `UpscaleTexture` runs `Invoke` once and leaves `cache_` alone. -/
theorem UpscaleTexture_invokes_once {σ F : Type} (tf : TfLite σ F) (self : AIUpscaler σ)
    (input : List Byte) (width height : Int) (output : List Byte) (out_width out_height : Int) :
    (self.UpscaleTexture tf input width height output out_width out_height).self.invocations
        = self.invocations + 1
    ∧ (self.UpscaleTexture tf input width height output out_width out_height).self.cache_
        = self.cache_ := by
  unfold AIUpscaler.UpscaleTexture
  simp only []
  split_ifs <;> exact ⟨rfl, rfl⟩

/-- The wrapper `lumina_upscale` never touches the handle or the sync function pointer. -/
theorem lumina_upscale_keeps {σ : Type} (env : Env σ) (s : State σ) (input : List Byte)
    (w h : Int) (outs : Outs) :
    (lumina_upscale env s input w h outs).state.g_plugin_handle = s.g_plugin_handle
    ∧ (lumina_upscale env s input w h outs).state.fn_lumina_process = s.fn_lumina_process := by
  unfold lumina_upscale
  split
  · exact ⟨rfl, rfl⟩
  · split
    · exact ⟨rfl, rfl⟩
    · simp only []
      split_ifs <;> exact ⟨rfl, rfl⟩

/-- On a bound module, once the allocation succeeds, a call of `lumina_upscale` adds one
call of the plugin's sync entry point to the record. -/
theorem lumina_upscale_calls_once {σ : Type} (env : Env σ) (s : State σ)
    (process : σ → List Byte → Int → Int → Int → Int → ProcessRet σ)
    (input : List Byte) (w h : Int) (outs : Outs)
    (hb : s.g_plugin_handle.isSome = true) (hp : s.fn_lumina_process = some process)
    (hm : env.malloc (toSizeT (max_size w h)) = true) :
    (lumina_upscale env s input w h outs).state.trace.count
        (Event.call Sym.lumina_process_texture)
      = s.trace.count (Event.call Sym.lumina_process_texture) + 1 := by
  by_cases hr : (process s.plugin input w h outs.out_w outs.out_h).result = 1
  · rw [lumina_upscale_bound_ok env s process input w h outs hb hp hm hr]
    simp [afterProcess, List.count_append]
  · rw [lumina_upscale_bound_fail env s process input w h outs hb hp hm hr]
    simp [afterProcess, List.count_append]

/-- C2, as stated, fails: on the scenario's all-zero `64 x 64 x 3` texture and a backend
double that reports 4x linear scale, the first upscale succeeds with a `256 x 256` result
and the second, byte-identical call returns the same output but invokes the backend once
more, through `lumina_upscale` (two `lumina_process_texture` calls on record, the
double's own counter at 2) and through `UpscaleTexture` (two `Invoke` calls, the cache
still empty). -/
theorem C2_counterexample :
    (lumina_upscale testEnv scale4Bound zeroTexture 64 64 ⟨none, 0, 0⟩).ret = true
    ∧ (lumina_upscale testEnv scale4Bound zeroTexture 64 64 ⟨none, 0, 0⟩).outs.out_w = 256
    ∧ (lumina_upscale testEnv scale4Bound zeroTexture 64 64 ⟨none, 0, 0⟩).outs.out_h = 256
    ∧ (lumina_upscale testEnv scale4Bound zeroTexture 64 64 ⟨none, 0, 0⟩).state.trace.count
        (Event.call Sym.lumina_process_texture) = 1
    ∧ (lumina_upscale testEnv
        (lumina_upscale testEnv scale4Bound zeroTexture 64 64 ⟨none, 0, 0⟩).state
        zeroTexture 64 64 ⟨none, 0, 0⟩).ret = true
    ∧ (lumina_upscale testEnv
        (lumina_upscale testEnv scale4Bound zeroTexture 64 64 ⟨none, 0, 0⟩).state
        zeroTexture 64 64 ⟨none, 0, 0⟩).outs
        = (lumina_upscale testEnv scale4Bound zeroTexture 64 64 ⟨none, 0, 0⟩).outs
    ∧ (lumina_upscale testEnv
        (lumina_upscale testEnv scale4Bound zeroTexture 64 64 ⟨none, 0, 0⟩).state
        zeroTexture 64 64 ⟨none, 0, 0⟩).state.trace.count
          (Event.call Sym.lumina_process_texture) = 2
    ∧ (lumina_upscale testEnv
        (lumina_upscale testEnv scale4Bound zeroTexture 64 64 ⟨none, 0, 0⟩).state
        zeroTexture 64 64 ⟨none, 0, 0⟩).state.plugin = 2
    ∧ (freshUpscaler.UpscaleTexture (scale4Interpreter 64 64) zeroTexture 64 64
        blankOutput 0 0).ret = true
    ∧ (freshUpscaler.UpscaleTexture (scale4Interpreter 64 64) zeroTexture 64 64
        blankOutput 0 0).out_width = 256
    ∧ (freshUpscaler.UpscaleTexture (scale4Interpreter 64 64) zeroTexture 64 64
        blankOutput 0 0).out_height = 256
    ∧ (freshUpscaler.UpscaleTexture (scale4Interpreter 64 64) zeroTexture 64 64
        blankOutput 0 0).self.invocations = 1
    ∧ ((freshUpscaler.UpscaleTexture (scale4Interpreter 64 64) zeroTexture 64 64
        blankOutput 0 0).self.UpscaleTexture (scale4Interpreter 64 64) zeroTexture 64 64
        blankOutput 0 0).ret = true
    ∧ ((freshUpscaler.UpscaleTexture (scale4Interpreter 64 64) zeroTexture 64 64
        blankOutput 0 0).self.UpscaleTexture (scale4Interpreter 64 64) zeroTexture 64 64
        blankOutput 0 0).self.invocations = 2
    ∧ ((freshUpscaler.UpscaleTexture (scale4Interpreter 64 64) zeroTexture 64 64
        blankOutput 0 0).self.UpscaleTexture (scale4Interpreter 64 64) zeroTexture 64 64
        blankOutput 0 0).self.cache_ = [] :=
  ⟨by decide, by decide, by decide, by decide, by decide, rfl, by decide, by decide,
   by decide, by decide, by decide, by decide, by decide, by decide, by decide⟩

/-- C2, amended: neither upscale entry point consults or fills the result cache. Every
call of `UpscaleTexture` runs `Invoke` once and leaves `cache_` as it was, and every
call of `lumina_upscale` on a bound backend whose allocation succeeds calls
`lumina_process_texture` once; so a second call with the byte-identical input performs
one more backend invocation, two in all. -/
theorem C2_each_call_invokes_backend {σ τ F : Type}
    (tf : TfLite τ F) (self : AIUpscaler τ) (output : List Byte) (out_width out_height : Int)
    (env env2 : Env σ) (s : State σ)
    (process : σ → List Byte → Int → Int → Int → Int → ProcessRet σ)
    (input : List Byte) (w h : Int) (outs outs2 : Outs)
    (hb : s.g_plugin_handle.isSome = true) (hp : s.fn_lumina_process = some process)
    (hm : env.malloc (toSizeT (max_size w h)) = true)
    (hm2 : env2.malloc (toSizeT (max_size w h)) = true) :
    (self.UpscaleTexture tf input w h output out_width out_height).self.invocations
        = self.invocations + 1
    ∧ (self.UpscaleTexture tf input w h output out_width out_height).self.cache_ = self.cache_
    ∧ ((self.UpscaleTexture tf input w h output out_width out_height).self.UpscaleTexture tf
          input w h output out_width out_height).self.invocations = self.invocations + 2
    ∧ ((self.UpscaleTexture tf input w h output out_width out_height).self.UpscaleTexture tf
          input w h output out_width out_height).self.cache_ = self.cache_
    ∧ (lumina_upscale env s input w h outs).state.trace.count
          (Event.call Sym.lumina_process_texture)
        = s.trace.count (Event.call Sym.lumina_process_texture) + 1
    ∧ (lumina_upscale env2 (lumina_upscale env s input w h outs).state input w h outs2).state.trace.count
          (Event.call Sym.lumina_process_texture)
        = s.trace.count (Event.call Sym.lumina_process_texture) + 2 := by
  have h1 := UpscaleTexture_invokes_once tf self input w h output out_width out_height
  have h2 := UpscaleTexture_invokes_once tf
    (self.UpscaleTexture tf input w h output out_width out_height).self
    input w h output out_width out_height
  have k1 := lumina_upscale_calls_once env s process input w h outs hb hp hm
  have hk := lumina_upscale_keeps env s input w h outs
  have k2 := lumina_upscale_calls_once env2 (lumina_upscale env s input w h outs).state process
    input w h outs2 (by rw [hk.1]; exact hb) (by rw [hk.2]; exact hp) hm2
  refine ⟨h1.1, h1.2, ?_, ?_, k1, ?_⟩
  · rw [h2.1, h1.1]
  · rw [h2.2, h1.2]
  · rw [k2, k1]

theorem C2_each_call_invokes_backend_witness :
    scale4Bound.g_plugin_handle.isSome = true
    ∧ testEnv.malloc (toSizeT (max_size 64 64)) = true
    ∧ (lumina_upscale testEnv
        (lumina_upscale testEnv scale4Bound zeroTexture 64 64 ⟨none, 0, 0⟩).state
        zeroTexture 64 64 ⟨none, 0, 0⟩).state.trace.count
          (Event.call Sym.lumina_process_texture)
        = scale4Bound.trace.count (Event.call Sym.lumina_process_texture) + 2 :=
  ⟨by decide, rfl,
   (C2_each_call_invokes_backend (scale4Interpreter 64 64) freshUpscaler blankOutput 0 0
      testEnv testEnv scale4Bound
      (fun n _ w h _ _ =>
        { plugin := n + 1, result := 1,
          stored := List.replicate (w * 4 * (h * 4) * 3).toNat 0,
          out_w := w * 4, out_h := h * 4 })
      zeroTexture 64 64 ⟨none, 0, 0⟩ ⟨none, 0, 0⟩ (by decide) rfl rfl rfl).2.2.2.2.2⟩

/-! ## The async request protocol -/

/-- An identity is unique only while its request is pending or unread: once request 1 has
been collected, the plugin double hands identity 1 to the next submission, and when that
request is Ready a `lumina_async_result` on identity 1 returns true again, with the new
request's buffer. -/
theorem collected_identity_reissued :
    (lumina_async_result
        (Step.run trackerEnv trackerBusy
          [Step.finish 1 (RequestState.Ready ⟨3, [9, 9, 9]⟩ 1 1)])
        1 ⟨none, 0, 0⟩).ret = true
    ∧ (lumina_upscale_async
        (Step.run trackerEnv trackerBusy
          [Step.finish 1 (RequestState.Ready ⟨3, [9, 9, 9]⟩ 1 1),
           Step.async_result 1 ⟨none, 0, 0⟩]) [5, 5, 5] 1 1).2 = 1
    ∧ (lumina_async_result
        (Step.run trackerEnv trackerBusy
          [Step.finish 1 (RequestState.Ready ⟨3, [9, 9, 9]⟩ 1 1),
           Step.async_result 1 ⟨none, 0, 0⟩,
           Step.upscale_async [5, 5, 5] 1 1,
           Step.finish 1 (RequestState.Ready ⟨3, [4, 4, 4]⟩ 1 1)])
        1 ⟨none, 0, 0⟩).ret = true
    ∧ (lumina_async_result
        (Step.run trackerEnv trackerBusy
          [Step.finish 1 (RequestState.Ready ⟨3, [9, 9, 9]⟩ 1 1),
           Step.async_result 1 ⟨none, 0, 0⟩,
           Step.upscale_async [5, 5, 5] 1 1,
           Step.finish 1 (RequestState.Ready ⟨3, [4, 4, 4]⟩ 1 1)])
        1 ⟨none, 0, 0⟩).outs = ⟨some ⟨3, [4, 4, 4]⟩, 1, 1⟩ := by
  decide

theorem C4_no_stale_reuse_witness :
    AIUpscaler.ComputeHash sumHash [1, 2, 3] 3 ≠ AIUpscaler.ComputeHash sumHash [3, 2, 2] 3
    ∧ (freshUpscaler.CacheTexture (AIUpscaler.ComputeHash sumHash [1, 2, 3] 3) [7, 8] 2).IsCached
        (AIUpscaler.ComputeHash sumHash [3, 2, 2] 3) = false
    ∧ (freshUpscaler.CacheTexture (AIUpscaler.ComputeHash sumHash [1, 2, 3] 3) [7, 8] 2).GetCached
        (AIUpscaler.ComputeHash sumHash [3, 2, 2] 3) = none :=
  ⟨by decide,
   ((C4_no_stale_reuse sumHash freshUpscaler [1, 2, 3] [3, 2, 2] [7, 8] 2 (by decide)).2.2
      rfl).1,
   ((C4_no_stale_reuse sumHash freshUpscaler [1, 2, 3] [3, 2, 2] [7, 8] 2 (by decide)).2.2
      rfl).2⟩

end RiceUpscale
